import Mathlib

/-!
Verification of the data reconciliation pipeline of `Task_1.py` (US Trade &
Tariff Tracker): trade-data fetching/parsing, country-name normalization,
the export/import outer merge, the tariff left join, the empty-result
short circuit of the main script, and the TTL cache on the fetcher.

Conventions of the embedding:
* Monetary values are rationals (`ℚ`); the script's float arithmetic here is
  an exact subtraction and an exact division by `1e9` of integer dollar
  counts, so `ℚ` models the value-level identities the script relies on.
* A pandas cell that ends up `NaN` (and is then clobbered by `fillna(0)` and
  `str.title()`) in the `CTY_NAME` column is modelled as `Option.none`.
* Any exception inside the `try` block of `get_census_trade_data` (bad HTTP
  status, malformed JSON, missing column, ragged rows, duplicated column
  labels, non-numeric value field) is one collapsed `FetchError`, matching
  the single broad `except` branch at lines 99-101 of the script.
-/

/-! ### Reconciler: country-name normalization (`Task_1.py` lines 83-95)

`df_merged['CTY_NAME'].str.title()` followed by `.replace(name_fixes)`.
Python's `str.title()` upcases a character that does not follow a cased
character and downcases one that does; the model below implements that rule
for the ASCII letters, which is the alphabet of the Census country names
and of every string in the fixup table. -/

/-- Model of Python's "cased character" test, on the ASCII letters. -/
def charIsCased (c : Char) : Bool :=
  decide ((65 ≤ c.toNat ∧ c.toNat ≤ 90) ∨ (97 ≤ c.toNat ∧ c.toNat ≤ 122))

/-- Model of upper-casing a single character (ASCII range). -/
def charUp (c : Char) : Char :=
  if 97 ≤ c.toNat ∧ c.toNat ≤ 122 then Char.ofNat (c.toNat - 32) else c

/-- Model of lower-casing a single character (ASCII range). -/
def charLow (c : Char) : Char :=
  if 65 ≤ c.toNat ∧ c.toNat ≤ 90 then Char.ofNat (c.toNat + 32) else c

/-- Character-by-character worker of `str.title()`: the `Bool` state says
whether the previous character was cased. -/
def titleAux : Bool → List Char → List Char
  | _, [] => []
  | prevCased, c :: cs =>
      (if prevCased then charLow c else charUp c) :: titleAux (charIsCased c) cs

/-- Model of Python's `str.title()`, as used on the `CTY_NAME` column. -/
def pyTitle (s : String) : String := ⟨titleAux false s.data⟩

/-- The `name_fixes` dictionary of `Task_1.py` lines 87-94, in source order. -/
def name_fixes : List (String × String) :=
  [ ("Korea, South", "South Korea"),
    ("United Kingdom", "United Kingdom"),
    ("China", "China"),
    ("Russian Federation", "Russia"),
    ("Vietnam", "Vietnam"),
    ("Germany", "Germany") ]

/-- Model of `Series.replace(name_fixes)` applied to one cell: a value that
is a key of the dictionary is replaced, any other value is kept. -/
def applyFixes (s : String) : String := (name_fixes.lookup s).getD s

/-- The Reconciler's name normalization: title-case, then the fixup table
(`Task_1.py` lines 84 and 95). -/
def normalizeName (s : String) : String := applyFixes (pyTitle s)

/-! ### Trade Data Fetcher: header-driven parsing (`Task_1.py` lines 53-69)

`pd.DataFrame(data[1:], columns=data[0])` followed by column accesses by
name. A column access selects the values under the header entry of that
name; it is a hard error (swallowed by the `except` branch, hence a
`FetchError`) when the label is absent or duplicated, and the `DataFrame`
constructor itself fails on ragged rows. -/

/-- Digit test used by the numeric-conversion model. -/
def isDigitChar (c : Char) : Bool := decide (48 ≤ c.toNat ∧ c.toNat ≤ 57)

/-- Model of `pd.to_numeric` on a Census value cell: a non-empty string of
decimal digits parses to the denoted natural number, anything else fails. -/
def parseNum? (s : String) : Option Nat :=
  if s.data ≠ [] ∧ s.data.all isDigitChar then
    some (s.data.foldl (fun n c => n * 10 + (c.toNat - 48)) 0)
  else none

/-- Model of `df[col]` for one row: the cell under the header label `col`.
Requires the label to occur exactly once in the header, as pandas raises on
a missing label and on a duplicated one (via the later numeric conversion);
both raises land in the `except` branch. -/
def getCell (hdr : List String) (col : String) (row : List String) : Option String :=
  if hdr.count col = 1 then (hdr.zip row).lookup col else none

/-- Row-by-row parsing of a table body; any failing row fails the table,
matching the vectorized pandas operations that raise on any bad cell. -/
def parseRows (f : List String → Option α) : List (List String) → Option (List α)
  | [] => some []
  | r :: rs =>
      match f r, parseRows f rs with
      | some a, some recs => some (a :: recs)
      | _, _ => none

/-- One exports data row: `CTY_CODE`, `CTY_NAME`, and `ALL_VAL_YR` converted
to billions (`Task_1.py` line 68). -/
def parseExpRow (hdr row : List String) : Option (String × String × ℚ) := do
  let code ← getCell hdr "CTY_CODE" row
  let nm ← getCell hdr "CTY_NAME" row
  let raw ← getCell hdr "ALL_VAL_YR" row
  let v ← parseNum? raw
  some (code, nm, (v : ℚ) / 1000000000)

/-- One imports data row: `CTY_CODE` and `GEN_VAL_YR` converted to billions
(`Task_1.py` line 69). The script never reads `CTY_NAME` from the imports
frame: line 73 slices it to `['CTY_CODE', 'Imports']`. -/
def parseImpRow (hdr row : List String) : Option (String × ℚ) := do
  let code ← getCell hdr "CTY_CODE" row
  let raw ← getCell hdr "GEN_VAL_YR" row
  let v ← parseNum? raw
  some (code, (v : ℚ) / 1000000000)

/-- The exports payload parsed into `(code, rawName, exportsB)` triples.
The header is row 0; rows must be rectangular and the three accessed labels
present exactly once, else the pipeline raises into the `except` branch. -/
def buildExpTable (payload : List (List String)) : Option (List (String × String × ℚ)) :=
  match payload with
  | [] => none
  | hdr :: rows =>
      if (∀ r ∈ rows, r.length = hdr.length) ∧
          hdr.count "CTY_CODE" = 1 ∧ hdr.count "CTY_NAME" = 1 ∧
          hdr.count "ALL_VAL_YR" = 1 then
        parseRows (parseExpRow hdr) rows
      else none

/-- The imports payload parsed into `(code, importsB)` pairs. -/
def buildImpTable (payload : List (List String)) : Option (List (String × ℚ)) :=
  match payload with
  | [] => none
  | hdr :: rows =>
      if (∀ r ∈ rows, r.length = hdr.length) ∧
          hdr.count "CTY_CODE" = 1 ∧ hdr.count "GEN_VAL_YR" = 1 then
        parseRows (parseImpRow hdr) rows
      else none

/-! ### Fetcher: outer merge and derived columns (`Task_1.py` lines 72-97) -/

/-- A row of `df_merged` after `pd.merge(..., on='CTY_CODE', how='outer')`
and `fillna(0)`. `ctyName` is `none` for an imports-only row: the exports
frame is the only name carrier (line 73 drops the imports frame's
`CTY_NAME`), so the name cell holds `NaN`, which `fillna(0)` turns into the
number `0` and `str.title()` back into `NaN` — never a usable name. -/
structure MergedRow where
  ctyCode : String
  ctyName : Option String
  exports : ℚ
  imports : ℚ
deriving DecidableEq

/-- Model of the outer merge on `CTY_CODE` with `fillna(0)`: every exports
row paired with each matching imports row (or `imports = 0` if none), then
every unmatched imports row with `exports = 0` and no name. -/
def mergeOuter (exps : List (String × String × ℚ)) (imps : List (String × ℚ)) :
    List MergedRow :=
  (exps.flatMap fun e =>
    match imps.filter (fun p => p.1 == e.1) with
    | [] => [⟨e.1, some e.2.1, e.2.2, 0⟩]
    | ms => ms.map fun p => ⟨e.1, some e.2.1, e.2.2, p.2⟩) ++
  ((imps.filter fun p => exps.all fun e => e.1 != p.1).map fun p =>
    ⟨p.1, none, 0, p.2⟩)

/-- A row of the trade table `df_trade` handed to the main script: country
code, the normalized `Country Name` (or `none` for the `NaN` artifact of an
imports-only row), exports, imports, and the derived balance. -/
structure TradeRecord where
  ctyCode : String
  countryName : Option String
  exports : ℚ
  imports : ℚ
  balance : ℚ
deriving DecidableEq

/-- Lines 81-95: derive `US Trade Balance ($B)` and the normalized
`Country Name` on one merged row. -/
def finishRecord (m : MergedRow) : TradeRecord :=
  { ctyCode := m.ctyCode
    countryName := m.ctyName.map normalizeName
    exports := m.exports
    imports := m.imports
    balance := m.exports - m.imports }

/-- The single collapsed error kind of the fetcher: the broad `except`
branch of lines 99-101 does not distinguish causes. -/
inductive FetchError where
  | fetchError
deriving DecidableEq

/-- The fetch pipeline on already-downloaded payloads: parse both tables,
outer-merge, derive balance and normalized names. Any failure anywhere is
the one `FetchError`. -/
def processPayloads (dataExp dataImp : List (List String)) :
    Except FetchError (List TradeRecord) :=
  match buildExpTable dataExp, buildImpTable dataImp with
  | some exps, some imps => Except.ok ((mergeOuter exps imps).map finishRecord)
  | _, _ => Except.error FetchError.fetchError

/-- What the caller of `get_census_trade_data` receives: the trade table on
success, the empty table when the `except` branch fired (lines 99-101). -/
def get_census_trade_data (dataExp dataImp : List (List String)) : List TradeRecord :=
  match processPayloads dataExp dataImp with
  | Except.ok l => l
  | Except.error _ => []

/-! ### Tariff Catalog (`Task_1.py` lines 103-114) -/

/-- One row of the static tariff table. -/
structure TariffEntry where
  countryName : String
  tariffRatePct : ℚ
  category : String
  iso3 : String
deriving DecidableEq

/-- The hand-maintained tariff table of `get_tariff_data`, in source order;
rates are the script's decimal literals as exact rationals. -/
def get_tariff_data : List TariffEntry :=
  [ ⟨"Canada", 0, "FTA Partner", "CAN"⟩,
    ⟨"Mexico", 0, "FTA Partner", "MEX"⟩,
    ⟨"China", 193/10, "Trade War", "CHN"⟩,
    ⟨"Germany", 24/10, "Normal Trade", "DEU"⟩,
    ⟨"France", 26/10, "Normal Trade", "FRA"⟩,
    ⟨"United Kingdom", 25/10, "Normal Trade", "GBR"⟩,
    ⟨"India", 32/10, "Normal Trade", "IND"⟩,
    ⟨"Japan", 0, "FTA Partner", "JPN"⟩,
    ⟨"South Korea", 0, "FTA Partner", "KOR"⟩,
    ⟨"Brazil", 35/10, "Normal Trade", "BRA"⟩,
    ⟨"Vietnam", 28/10, "Normal Trade", "VNM"⟩,
    ⟨"Russia", 35, "Sanctioned", "RUS"⟩,
    ⟨"Australia", 0, "FTA Partner", "AUS"⟩ ]

/-! ### Policy Joiner (`Task_1.py` lines 130-135)

`pd.merge(df_tariff, df_trade, on='Country Name', how='left')` followed by
`fillna(0)` on the three trade columns. A pandas left merge keeps the left
order and emits one output row per (left row, matching right row) pair —
one zero-filled row when there is no match. -/

/-- A row of `merged_df`. -/
structure JoinedRow where
  countryName : String
  tariffRatePct : ℚ
  category : String
  iso3 : String
  exports : ℚ
  imports : ℚ
  balance : ℚ
deriving DecidableEq

/-- The trade rows whose normalized `Country Name` equals the tariff
entry's name. A `none` name (imports-only `NaN` artifact) matches nothing. -/
def matchRows (trade : List TradeRecord) (t : TariffEntry) : List TradeRecord :=
  trade.filter fun r => r.countryName == some t.countryName

/-- The output rows the left merge emits for one tariff entry: one row per
match, or the zero-filled row when there is none. -/
def joinRowsFor (trade : List TradeRecord) (t : TariffEntry) : List JoinedRow :=
  match matchRows trade t with
  | [] => [⟨t.countryName, t.tariffRatePct, t.category, t.iso3, 0, 0, 0⟩]
  | ms => ms.map fun r =>
      ⟨t.countryName, t.tariffRatePct, t.category, t.iso3,
        r.exports, r.imports, r.balance⟩

/-- The Policy Joiner: the left merge of line 130 plus the `fillna(0)` of
lines 133-135, driving on the tariff table in its order. -/
def joinTariffTrade (tariff : List TariffEntry) (trade : List TradeRecord) :
    List JoinedRow :=
  tariff.flatMap (joinRowsFor trade)

/-! ### Main script control flow (`Task_1.py` lines 120-188) -/

/-- The two terminal states of one render pass: the map/table rendered from
the joined rows, or the `st.warning` "data unavailable" branch. -/
inductive RenderOutcome where
  | rendered (rows : List JoinedRow)
  | dataUnavailable
deriving DecidableEq

/-- Lines 125-188: join and render only when `df_trade` is non-empty,
otherwise show the warning; the script never raises here. -/
def mainLogic (dataExp dataImp : List (List String)) : RenderOutcome :=
  let df_trade := get_census_trade_data dataExp dataImp
  if df_trade.isEmpty then RenderOutcome.dataUnavailable
  else RenderOutcome.rendered (joinTariffTrade get_tariff_data df_trade)

/-! ### TTL cache (`Task_1.py` line 23)

Model of the `@st.cache_data(ttl=3600)` decorator wrapped around the
(argument-less) `get_census_trade_data`: the framework stores the last
result with its fetch timestamp and re-executes the body — issuing the
network requests — only once the time-to-live has elapsed. -/

/-- The cache time-to-live, in seconds. -/
def CACHE_TTL : Nat := 3600

/-- The process-wide cache cell: `none` before the first call, otherwise
the fetch timestamp and the stored result. -/
structure CacheState where
  entry : Option (Nat × List TradeRecord)
deriving DecidableEq

/-- Result of one decorated call: the returned value, the cache state
afterwards, and whether the body ran (issuing network requests). -/
structure FetchOutcome where
  value : List TradeRecord
  state : CacheState
  issuedRequest : Bool
deriving DecidableEq

/-- One call through the TTL cache at time `now`: a stored entry younger
than the TTL is returned with no network access, otherwise the body
`fetchRemote` runs and its result is stored with timestamp `now`. -/
def cachedGetTrade (fetchRemote : Nat → List TradeRecord) (now : Nat)
    (s : CacheState) : FetchOutcome :=
  match s.entry with
  | some (t0, v) =>
      if now < t0 + CACHE_TTL then ⟨v, s, false⟩
      else ⟨fetchRemote now, ⟨some (now, fetchRemote now)⟩, true⟩
  | none => ⟨fetchRemote now, ⟨some (now, fetchRemote now)⟩, true⟩

/-! ## Helper lemmas: title-casing -/

/-- ASCII code points survive the `Char.ofNat`/`Char.toNat` round trip. -/
theorem ofNat_toNat_ascii : ∀ n, n < 128 → (Char.ofNat n).toNat = n := by decide

theorem toNat_charUp (c : Char) :
    (charUp c).toNat = if 97 ≤ c.toNat ∧ c.toNat ≤ 122 then c.toNat - 32 else c.toNat := by
  unfold charUp
  by_cases h : 97 ≤ c.toNat ∧ c.toNat ≤ 122
  · rw [if_pos h, if_pos h, ofNat_toNat_ascii _ (by omega)]
  · rw [if_neg h, if_neg h]

theorem toNat_charLow (c : Char) :
    (charLow c).toNat = if 65 ≤ c.toNat ∧ c.toNat ≤ 90 then c.toNat + 32 else c.toNat := by
  unfold charLow
  by_cases h : 65 ≤ c.toNat ∧ c.toNat ≤ 90
  · rw [if_pos h, if_pos h, ofNat_toNat_ascii _ (by omega)]
  · rw [if_neg h, if_neg h]

theorem charUp_id_of (x : Char) (h : ¬ (97 ≤ x.toNat ∧ x.toNat ≤ 122)) : charUp x = x := by
  unfold charUp; exact if_neg h

theorem charLow_id_of (x : Char) (h : ¬ (65 ≤ x.toNat ∧ x.toNat ≤ 90)) : charLow x = x := by
  unfold charLow; exact if_neg h

/-- Upper-casing does not change whether a character is cased. -/
theorem charIsCased_charUp (c : Char) : charIsCased (charUp c) = charIsCased c := by
  simp only [charIsCased, toNat_charUp]
  by_cases h : 97 ≤ c.toNat ∧ c.toNat ≤ 122
  · rw [if_pos h]; simp only [decide_eq_decide]; omega
  · rw [if_neg h]

/-- Lower-casing does not change whether a character is cased. -/
theorem charIsCased_charLow (c : Char) : charIsCased (charLow c) = charIsCased c := by
  simp only [charIsCased, toNat_charLow]
  by_cases h : 65 ≤ c.toNat ∧ c.toNat ≤ 90
  · rw [if_pos h]; simp only [decide_eq_decide]; omega
  · rw [if_neg h]

theorem charUp_charUp (c : Char) : charUp (charUp c) = charUp c := by
  apply charUp_id_of
  rw [toNat_charUp]
  by_cases h : 97 ≤ c.toNat ∧ c.toNat ≤ 122
  · rw [if_pos h]; omega
  · rw [if_neg h]; exact h

theorem charLow_charLow (c : Char) : charLow (charLow c) = charLow c := by
  apply charLow_id_of
  rw [toNat_charLow]
  by_cases h : 65 ≤ c.toNat ∧ c.toNat ≤ 90
  · rw [if_pos h]; omega
  · rw [if_neg h]; exact h

/-- The title-casing worker is idempotent for every starting state. -/
theorem titleAux_titleAux (cs : List Char) :
    ∀ b : Bool, titleAux b (titleAux b cs) = titleAux b cs := by
  induction cs with
  | nil => intro b; rfl
  | cons c cs ih =>
      intro b
      cases b with
      | false => simp [titleAux, charUp_charUp, charIsCased_charUp, ih]
      | true => simp [titleAux, charLow_charLow, charIsCased_charLow, ih]

/-- The model of `str.title()` is idempotent. -/
theorem pyTitle_pyTitle (s : String) : pyTitle (pyTitle s) = pyTitle s := by
  simp only [pyTitle]
  rw [titleAux_titleAux]

/-! ## Helper lemmas: association-list lookup -/

/-- A successful `List.lookup` exhibits a member pair. -/
theorem mem_of_lookup_eq_some {l : List (String × String)} {a b : String}
    (h : l.lookup a = some b) : (a, b) ∈ l := by
  induction l with
  | nil => simp [List.lookup] at h
  | cons p l ih =>
      rw [List.lookup_cons] at h
      split at h
      · next heq =>
          have ha : a = p.1 := by simpa using heq
          have hb : p.2 = b := by injection h
          rw [ha, ← hb]
          exact List.mem_cons_self _ _
      · exact List.mem_cons_of_mem _ (ih h)

/-- Every value of the fixup table is a fixed point of `normalizeName`. -/
theorem name_fixes_values_fixed : ∀ p ∈ name_fixes, normalizeName p.2 = p.2 := by decide

/-- C3: `normalizeName` title-cases and then applies `name_fixes`; a name
whose title-cased form is not a key of the table passes through unchanged
after title-casing; "RUSSIAN FEDERATION" normalizes to "Russia",
"KOREA, SOUTH" to "South Korea", and "FRANCE" to "France". -/
theorem claim3_normalize_shape_and_scenarios :
    (∀ s : String, normalizeName s = applyFixes (pyTitle s)) ∧
    (∀ s : String, name_fixes.lookup (pyTitle s) = none → normalizeName s = pyTitle s) ∧
    normalizeName "RUSSIAN FEDERATION" = "Russia" ∧
    normalizeName "KOREA, SOUTH" = "South Korea" ∧
    normalizeName "FRANCE" = "France" := by
  refine ⟨fun s => rfl, fun s h => ?_, by decide, by decide, by decide⟩
  simp only [normalizeName, applyFixes, h, Option.getD_none]

/-- Witness for C3: the no-remap branch evaluated at "FRANCE". -/
theorem claim3_witness : normalizeName "FRANCE" = pyTitle "FRANCE" :=
  claim3_normalize_shape_and_scenarios.2.1 "FRANCE" (by decide)

/-- C8: the Reconciler's normalization is idempotent. -/
theorem claim8_normalize_idempotent :
    ∀ x : String, normalizeName (normalizeName x) = normalizeName x := by
  intro x
  cases h : name_fixes.lookup (pyTitle x) with
  | none =>
      have hx : normalizeName x = pyTitle x := by
        simp only [normalizeName, applyFixes, h, Option.getD_none]
      rw [hx]
      simp only [normalizeName, applyFixes, pyTitle_pyTitle, h, Option.getD_none]
  | some v =>
      have hx : normalizeName x = v := by
        simp only [normalizeName, applyFixes, h, Option.getD_some]
      rw [hx]
      exact name_fixes_values_fixed _ (mem_of_lookup_eq_some h)

/-! ## Helper lemmas: the Policy Joiner -/

/-- With at most one matching trade row, the left merge emits exactly one
output row for a tariff entry, named after the entry. -/
theorem joinRowsFor_of_unique (trade : List TradeRecord) (t : TariffEntry)
    (h : (matchRows trade t).length ≤ 1) :
    ∃ row : JoinedRow, joinRowsFor trade t = [row] ∧ row.countryName = t.countryName := by
  cases hm : matchRows trade t with
  | nil =>
      refine ⟨⟨t.countryName, t.tariffRatePct, t.category, t.iso3, 0, 0, 0⟩, ?_, rfl⟩
      simp [joinRowsFor, hm]
  | cons m ms =>
      cases ms with
      | nil =>
          refine ⟨⟨t.countryName, t.tariffRatePct, t.category, t.iso3,
            m.exports, m.imports, m.balance⟩, ?_, rfl⟩
          simp [joinRowsFor, hm]
      | cons m2 ms2 =>
          rw [hm] at h
          simp at h

/-- C1 counterexample: with one tariff entry and two trade records carrying
the same country name, the left merge emits two rows, not one, so the join
is not one-row-per-entry for every pair of input lists. -/
theorem claim1_counterexample :
    (joinTariffTrade [⟨"China", 193/10, "Trade War", "CHN"⟩]
      [⟨"5700", some "China", 1, 2, -1⟩, ⟨"5701", some "China", 3, 4, -1⟩]).length ≠ 1 := by
  decide

/-- C1 (amended): when every tariff entry matches at most one trade record
— in particular whenever trade country names are unique — the left join
yields exactly one row per tariff entry, in tariff input order. -/
theorem claim1_left_join_total_ordered (tariff : List TariffEntry)
    (trade : List TradeRecord)
    (h : ∀ t ∈ tariff, (matchRows trade t).length ≤ 1) :
    (joinTariffTrade tariff trade).length = tariff.length ∧
    (joinTariffTrade tariff trade).map JoinedRow.countryName =
      tariff.map TariffEntry.countryName := by
  induction tariff with
  | nil => simp [joinTariffTrade]
  | cons t ts ih =>
      obtain ⟨row, hrow, hname⟩ :=
        joinRowsFor_of_unique trade t (h t (List.mem_cons_self t ts))
      have ih' := ih fun t' ht' => h t' (List.mem_cons_of_mem t ht')
      constructor
      · simp [joinTariffTrade, List.flatMap_cons, hrow] at ih' ⊢
        exact ih'.1
      · simp [joinTariffTrade, List.flatMap_cons, hrow, hname] at ih' ⊢
        exact ih'.2

/-- Witness for C1 (amended): the full tariff catalog joined with an empty
trade table gives thirteen rows in catalog order. -/
theorem claim1_witness :
    (joinTariffTrade get_tariff_data []).length = get_tariff_data.length ∧
    (joinTariffTrade get_tariff_data []).map JoinedRow.countryName =
      get_tariff_data.map TariffEntry.countryName :=
  claim1_left_join_total_ordered get_tariff_data [] (by intro t ht; simp [matchRows])

/-- C6: a tariff entry with no matching trade record yields the single row
with zero exports, imports and balance and the entry's own rate, category
and ISO3 code; in particular the China-only scenario with an empty trade
table. -/
theorem claim6_no_match_zero_defaults :
    (∀ (trade : List TradeRecord) (t : TariffEntry),
        (∀ r ∈ trade, r.countryName ≠ some t.countryName) →
        joinRowsFor trade t =
          [⟨t.countryName, t.tariffRatePct, t.category, t.iso3, 0, 0, 0⟩]) ∧
    joinTariffTrade [⟨"China", 193/10, "Trade War", "CHN"⟩] [] =
      [⟨"China", 193/10, "Trade War", "CHN", 0, 0, 0⟩] := by
  constructor
  · intro trade t h
    have hm : matchRows trade t = [] := by
      rw [matchRows, List.filter_eq_nil_iff]
      intro r hr
      simpa using h r hr
    simp [joinRowsFor, hm]
  · rfl

/-- Witness for C6: the no-match branch evaluated on an empty trade table. -/
theorem claim6_witness :
    joinRowsFor [] ⟨"China", 193/10, "Trade War", "CHN"⟩ =
      [⟨"China", 193/10, "Trade War", "CHN", 0, 0, 0⟩] :=
  claim6_no_match_zero_defaults.1 [] _ (by simp)

/-- C7: the balance equals exports minus imports exactly — for every record
the fetch pipeline produces, and hence for every joined row, including the
zero-filled ones. -/
theorem claim7_balance_exact :
    (∀ dataExp dataImp recs, processPayloads dataExp dataImp = Except.ok recs →
        ∀ r ∈ recs, r.balance = r.exports - r.imports) ∧
    (∀ (tariff : List TariffEntry) (trade : List TradeRecord),
        (∀ r ∈ trade, r.balance = r.exports - r.imports) →
        ∀ row ∈ joinTariffTrade tariff trade,
          row.balance = row.exports - row.imports) := by
  constructor
  · intro dataExp dataImp recs h r hr
    unfold processPayloads at h
    split at h
    · injection h with h'
      rw [← h'] at hr
      obtain ⟨m, _, hm⟩ := List.mem_map.mp hr
      rw [← hm]
      rfl
    · exact absurd h (by simp)
  · intro tariff trade h row hrow
    obtain ⟨t, _, hrowt⟩ := List.mem_flatMap.mp hrow
    cases hm : matchRows trade t with
    | nil =>
        simp only [joinRowsFor, hm, List.mem_singleton] at hrowt
        rw [hrowt]
        simp
    | cons m ms =>
        simp only [joinRowsFor, hm, List.mem_map] at hrowt
        obtain ⟨r, hrmem, hr⟩ := hrowt
        have hrmem' : r ∈ matchRows trade t := by rw [hm]; exact hrmem
        have hrt : r ∈ trade := List.mem_of_mem_filter hrmem'
        rw [← hr]
        simpa using h r hrt

/-- Witness for C7: the joined row of a single matching zero trade record. -/
theorem claim7_witness :
    (⟨"China", 193/10, "Trade War", "CHN", 0, 0, 0⟩ : JoinedRow).balance =
      (⟨"China", 193/10, "Trade War", "CHN", 0, 0, 0⟩ : JoinedRow).exports -
      (⟨"China", 193/10, "Trade War", "CHN", 0, 0, 0⟩ : JoinedRow).imports :=
  claim7_balance_exact.2 [⟨"China", 193/10, "Trade War", "CHN"⟩]
    [⟨"5700", some "China", 0, 0, 0⟩] (by simp)
    ⟨"China", 193/10, "Trade War", "CHN", 0, 0, 0⟩ (List.mem_singleton.mpr rfl)

/-! ## The Fetcher's outer merge (C2) -/

/-- C2 counterexample: an imports-only country does not get its name
carried from the imports side. With no exports rows and one imports row for
"BRAZIL", the merged record's country name is the `NaN` artifact (`none`),
not the normalized "Brazil" the imports payload carried — the exports frame
is the only name carrier in the script. -/
theorem claim2_counterexample :
    (get_census_trade_data
        [["CTY_CODE", "CTY_NAME", "ALL_VAL_YR"]]
        [["CTY_CODE", "CTY_NAME", "GEN_VAL_YR"],
         ["3510", "BRAZIL", "42000000000"]]).map TradeRecord.countryName = [none] ∧
    normalizeName "BRAZIL" = "Brazil" ∧
    (none : Option String) ≠ some "Brazil" := by
  refine ⟨by decide, by decide, by decide⟩

/-- C2 (amended): the outer merge zero-fills the missing side's value — an
imports-only code gets `exports = 0`, an exports-only code gets
`imports = 0` — but the country name comes only from the exports side: an
exports-only row keeps the exports name, an imports-only row has no name. -/
theorem claim2_outer_merge_zero_fill (exps : List (String × String × ℚ))
    (imps : List (String × ℚ)) (c : String) :
    ((∀ x ∈ exps, x.1 ≠ c) → ∀ i : ℚ, (c, i) ∈ imps →
        (⟨c, none, 0, i⟩ : MergedRow) ∈ mergeOuter exps imps) ∧
    (∀ (n : String) (ev : ℚ), (c, n, ev) ∈ exps → (∀ p ∈ imps, p.1 ≠ c) →
        (⟨c, some n, ev, 0⟩ : MergedRow) ∈ mergeOuter exps imps) := by
  constructor
  · intro hnone i hmem
    apply List.mem_append_right
    apply List.mem_map.mpr
    refine ⟨(c, i), List.mem_filter.mpr ⟨hmem, ?_⟩, rfl⟩
    rw [List.all_eq_true]
    intro x hx
    simpa using hnone x hx
  · intro n ev hmem hnone
    apply List.mem_append_left
    apply List.mem_flatMap.mpr
    refine ⟨(c, n, ev), hmem, ?_⟩
    have hfil : imps.filter (fun p => p.1 == (c, n, ev).1) = [] := by
      rw [List.filter_eq_nil_iff]
      intro p hp
      simpa using hnone p hp
    rw [hfil]
    exact List.mem_singleton.mpr rfl

/-- Witness for C2 (amended): one imports-only row and one exports-only row
at concrete values. -/
theorem claim2_witness :
    (⟨"3510", none, 0, 42⟩ : MergedRow) ∈
      mergeOuter [("5700", "CHINA", 7)] [("3510", 42)] ∧
    (⟨"5700", some "CHINA", 7, 0⟩ : MergedRow) ∈
      mergeOuter [("5700", "CHINA", 7)] [("3510", 42)] :=
  ⟨(claim2_outer_merge_zero_fill [("5700", "CHINA", 7)] [("3510", 42)] "3510").1
      (by decide) 42 (List.mem_singleton.mpr rfl),
    (claim2_outer_merge_zero_fill [("5700", "CHINA", 7)] [("3510", 42)] "5700").2
      "CHINA" 7 (List.mem_singleton.mpr rfl) (by decide)⟩

/-! ## Failure short-circuit of the main script (C5) -/

/-- C5: when the fetch fails, the caller sees the empty trade table and the
main script takes the "data unavailable" warning branch — the joiner never
runs; `mainLogic` is a total function, so the process does not terminate on
a fetch failure. -/
theorem claim5_failure_short_circuit (dataExp dataImp : List (List String))
    (e : FetchError) (h : processPayloads dataExp dataImp = Except.error e) :
    get_census_trade_data dataExp dataImp = [] ∧
    mainLogic dataExp dataImp = RenderOutcome.dataUnavailable := by
  have hempty : get_census_trade_data dataExp dataImp = [] := by
    unfold get_census_trade_data
    rw [h]
  refine ⟨hempty, ?_⟩
  unfold mainLogic
  rw [hempty]
  rfl

/-- Witness for C5: the empty (malformed) payloads make the fetch fail and
the script land in the warning branch. -/
theorem claim5_witness :
    get_census_trade_data [] [] = [] ∧
    mainLogic [] [] = RenderOutcome.dataUnavailable :=
  claim5_failure_short_circuit [] [] FetchError.fetchError rfl

/-! ## TTL cache (C9) -/

/-- C9: a call within the TTL window of a stored entry returns the stored
value with no network request and leaves the cache untouched; a call at or
after expiry runs the body again; and of two calls through a cold cache
within one TTL window, only the first issues a request and both return the
same value. -/
theorem claim9_cache_ttl :
    (∀ (f : Nat → List TradeRecord) (t0 : Nat) (v : List TradeRecord) (now : Nat),
        now < t0 + CACHE_TTL →
        cachedGetTrade f now ⟨some (t0, v)⟩ = ⟨v, ⟨some (t0, v)⟩, false⟩) ∧
    (∀ (f : Nat → List TradeRecord) (t0 : Nat) (v : List TradeRecord) (now : Nat),
        t0 + CACHE_TTL ≤ now →
        (cachedGetTrade f now ⟨some (t0, v)⟩).issuedRequest = true ∧
        (cachedGetTrade f now ⟨some (t0, v)⟩).value = f now) ∧
    (∀ (f : Nat → List TradeRecord) (t1 t2 : Nat), t2 < t1 + CACHE_TTL →
        (cachedGetTrade f t1 ⟨none⟩).issuedRequest = true ∧
        (cachedGetTrade f t2 (cachedGetTrade f t1 ⟨none⟩).state).issuedRequest = false ∧
        (cachedGetTrade f t2 (cachedGetTrade f t1 ⟨none⟩).state).value =
          (cachedGetTrade f t1 ⟨none⟩).value) := by
  refine ⟨fun f t0 v now h => ?_, fun f t0 v now h => ?_, fun f t1 t2 h => ?_⟩
  · simp only [cachedGetTrade]
    rw [if_pos h]
  · simp only [cachedGetTrade]
    rw [if_neg (show ¬ now < t0 + CACHE_TTL by omega)]
    exact ⟨rfl, rfl⟩
  · have hstate : (cachedGetTrade f t1 ⟨none⟩).state = ⟨some (t1, f t1)⟩ := rfl
    have hval : (cachedGetTrade f t1 ⟨none⟩).value = f t1 := rfl
    refine ⟨rfl, ?_, ?_⟩
    · rw [hstate]
      simp only [cachedGetTrade]
      rw [if_pos h]
    · rw [hstate, hval]
      simp only [cachedGetTrade]
      rw [if_pos h]

/-- Witness for C9: a warm cache hit ten seconds after a fetch at time 0. -/
theorem claim9_witness :
    cachedGetTrade (fun _ => []) 10 ⟨some (0, [])⟩ = ⟨[], ⟨some (0, [])⟩, false⟩ :=
  claim9_cache_ttl.1 (fun _ => []) 0 [] 10 (by decide)

/-! ## Tariff Catalog invariants (C10) -/

/-- C10: the tariff catalog is a fixed table of 13 rows with pairwise
distinct country names, non-negative rates, categories drawn from the four
policy classes, and ISO3 codes of exactly three uppercase ASCII letters.
(`get_tariff_data` is a constant of the model, so every call returns this
same table.) -/
theorem claim10_tariff_catalog_invariants :
    get_tariff_data.length = 13 ∧
    (get_tariff_data.map TariffEntry.countryName).Nodup ∧
    (∀ e ∈ get_tariff_data, 0 ≤ e.tariffRatePct) ∧
    (∀ e ∈ get_tariff_data, e.category = "FTA Partner" ∨
        e.category = "Normal Trade" ∨ e.category = "Trade War" ∨
        e.category = "Sanctioned") ∧
    (∀ e ∈ get_tariff_data, e.iso3.length = 3 ∧
        ∀ c ∈ e.iso3.data, 65 ≤ c.toNat ∧ c.toNat ≤ 90) := by
  refine ⟨rfl, by decide, ?_, by decide, by decide⟩
  intro e he
  fin_cases he <;> norm_num

/-- Witness for C10: the rate bound instantiated at the catalog's first
row. -/
theorem claim10_witness :
    (0 : ℚ) ≤ (⟨"Canada", 0, "FTA Partner", "CAN"⟩ : TariffEntry).tariffRatePct :=
  claim10_tariff_catalog_invariants.2.2.1 ⟨"Canada", 0, "FTA Partner", "CAN"⟩
    (List.mem_cons_self _ _)

/-! ## Helper lemmas: header-driven cell access (C4) -/

/-- With a unique key, an association-list lookup is membership. -/
theorem lookup_eq_some_iff_of_count_one {l : List (String × String)}
    {col v : String} (hc : (l.map Prod.fst).count col = 1) :
    l.lookup col = some v ↔ (col, v) ∈ l := by
  induction l with
  | nil => simp at hc
  | cons p l ih =>
      obtain ⟨k, w⟩ := p
      rw [List.map_cons, List.count_cons] at hc
      rw [List.lookup_cons]
      by_cases hk : col = k
      · subst hk
        simp only [beq_self_eq_true, if_pos] at hc ⊢
        have hzero : (l.map Prod.fst).count col = 0 := by omega
        have hnot : col ∉ l.map Prod.fst := List.count_eq_zero.mp hzero
        constructor
        · intro hv
          have : w = v := by injection hv
          rw [← this]
          exact List.mem_cons_self _ _
        · intro hv
          rcases List.mem_cons.mp hv with heq | htail
          · have : v = w := congrArg Prod.snd heq
            rw [this]
          · exact absurd (List.mem_map.mpr ⟨(col, v), htail, rfl⟩) hnot
      · have hbk : (col == k) = false := beq_false_of_ne hk
        rw [hbk]
        have hck : (k == col) = false := beq_false_of_ne (Ne.symm hk)
        rw [hck, if_neg (by simp)] at hc
        simp only [Nat.add_zero] at hc
        rw [ih hc]
        constructor
        · exact List.mem_cons_of_mem _
        · intro hv
          rcases List.mem_cons.mp hv with heq | htail
          · exact absurd (congrArg Prod.fst heq) hk
          · exact htail

/-- A key counted once among the first components belongs to some pair. -/
theorem exists_pair_of_count_one {l : List (String × String)} {col : String}
    (hc : (l.map Prod.fst).count col = 1) : ∃ v, (col, v) ∈ l := by
  have hmem : col ∈ l.map Prod.fst := List.count_pos_iff.mp (by omega)
  obtain ⟨p, hp, hfst⟩ := List.mem_map.mp hmem
  exact ⟨p.2, by rw [← hfst]; exact hp⟩

/-- Association-list lookup of a unique key is invariant under permutation
of the pair list. -/
theorem lookup_eq_of_perm {l l' : List (String × String)} {col : String}
    (hperm : l.Perm l') (hc : (l.map Prod.fst).count col = 1) :
    l.lookup col = l'.lookup col := by
  have hc' : (l'.map Prod.fst).count col = 1 := by
    rw [← (hperm.map Prod.fst).count_eq]
    exact hc
  obtain ⟨v, hv⟩ := exists_pair_of_count_one hc
  rw [(lookup_eq_some_iff_of_count_one hc).mpr hv,
    (lookup_eq_some_iff_of_count_one hc').mpr (hperm.mem_iff.mp hv)]

/-- The cell a column access selects depends only on the header-to-cell
pairing, not on the column position: permuting the (label, cell) pairs of a
row leaves every uniquely-labelled access unchanged. -/
theorem getCell_eq_of_perm {hdr row hdr' row' : List String} (col : String)
    (hlen : row.length = hdr.length) (hlen' : row'.length = hdr'.length)
    (hperm : (hdr.zip row).Perm (hdr'.zip row'))
    (hc : hdr.count col = 1) :
    getCell hdr col row = getCell hdr' col row' := by
  have hzc : ((hdr.zip row).map Prod.fst).count col = 1 := by
    rw [List.map_fst_zip _ _ (le_of_eq hlen.symm)]
    exact hc
  have hzc' : ((hdr'.zip row').map Prod.fst).count col = 1 := by
    rw [← (hperm.map Prod.fst).count_eq]
    exact hzc
  have hc' : hdr'.count col = 1 := by
    rw [List.map_fst_zip _ _ (le_of_eq hlen'.symm)] at hzc'
    exact hzc'
  unfold getCell
  rw [if_pos hc, if_pos hc']
  exact lookup_eq_of_perm hperm hzc

/-- `parseRows` succeeds with exactly one record per input row. -/
theorem parseRows_length {f : List String → Option α} :
    ∀ {rows : List (List String)} {recs : List α},
      parseRows f rows = some recs → recs.length = rows.length := by
  intro rows
  induction rows with
  | nil =>
      intro recs h
      simp only [parseRows] at h
      injection h with h'
      rw [← h']
      rfl
  | cons r rs ih =>
      intro recs h
      simp only [parseRows] at h
      cases hf : f r with
      | none => rw [hf] at h; simp at h
      | some a =>
          rw [hf] at h
          cases hrest : parseRows f rs with
          | none => rw [hrest] at h; simp at h
          | some as =>
              rw [hrest] at h
              injection h with h'
              rw [← h']
              simp [ih hrest]

/-- C4: the parse of a tabular payload is header-driven: a successful parse
has one record per data row on both the exports and the imports side; the
parsed fields of a row are invariant under reordering the (header label,
cell) pairs when the accessed labels are unique; and a payload that omits
any accessed column (`CTY_CODE`, `CTY_NAME` or `ALL_VAL_YR` on the exports
side, `CTY_CODE` or `GEN_VAL_YR` on the imports side) makes the fetch fail
with the `FetchError`, not with a silently defaulted field. -/
theorem claim4_header_driven_parse :
    (∀ (hdr : List String) (rows : List (List String))
        (recs : List (String × String × ℚ)),
        buildExpTable (hdr :: rows) = some recs → recs.length = rows.length) ∧
    (∀ (hdr : List String) (rows : List (List String))
        (recs : List (String × ℚ)),
        buildImpTable (hdr :: rows) = some recs → recs.length = rows.length) ∧
    (∀ hdr row hdr' row' : List String,
        row.length = hdr.length → row'.length = hdr'.length →
        (hdr.zip row).Perm (hdr'.zip row') →
        hdr.count "CTY_CODE" = 1 → hdr.count "CTY_NAME" = 1 →
        hdr.count "ALL_VAL_YR" = 1 →
        parseExpRow hdr row = parseExpRow hdr' row') ∧
    (∀ hdr row hdr' row' : List String,
        row.length = hdr.length → row'.length = hdr'.length →
        (hdr.zip row).Perm (hdr'.zip row') →
        hdr.count "CTY_CODE" = 1 → hdr.count "GEN_VAL_YR" = 1 →
        parseImpRow hdr row = parseImpRow hdr' row') ∧
    (∀ (hdr : List String) (rows dataImp : List (List String)),
        ¬ ("CTY_CODE" ∈ hdr ∧ "CTY_NAME" ∈ hdr ∧ "ALL_VAL_YR" ∈ hdr) →
        processPayloads (hdr :: rows) dataImp = Except.error FetchError.fetchError) ∧
    (∀ (dataExp : List (List String)) (hdr : List String)
        (rows : List (List String)),
        ¬ ("CTY_CODE" ∈ hdr ∧ "GEN_VAL_YR" ∈ hdr) →
        processPayloads dataExp (hdr :: rows) = Except.error FetchError.fetchError) := by
  refine ⟨?_, ?_, ?_, ?_, ?_, ?_⟩
  · intro hdr rows recs h
    simp only [buildExpTable] at h
    split at h
    · exact parseRows_length h
    · simp at h
  · intro hdr rows recs h
    simp only [buildImpTable] at h
    split at h
    · exact parseRows_length h
    · simp at h
  · intro hdr row hdr' row' hlen hlen' hperm h1 h2 h3
    have e1 := getCell_eq_of_perm "CTY_CODE" hlen hlen' hperm h1
    have e2 := getCell_eq_of_perm "CTY_NAME" hlen hlen' hperm h2
    have e3 := getCell_eq_of_perm "ALL_VAL_YR" hlen hlen' hperm h3
    simp only [parseExpRow, e1, e2, e3]
  · intro hdr row hdr' row' hlen hlen' hperm h1 h2
    have e1 := getCell_eq_of_perm "CTY_CODE" hlen hlen' hperm h1
    have e2 := getCell_eq_of_perm "GEN_VAL_YR" hlen hlen' hperm h2
    simp only [parseImpRow, e1, e2]
  · intro hdr rows dataImp hnot
    have hexp : buildExpTable (hdr :: rows) = none := by
      simp only [buildExpTable]
      rw [if_neg]
      rintro ⟨-, h1, h2, h3⟩
      exact hnot ⟨List.count_pos_iff.mp (by omega),
        List.count_pos_iff.mp (by omega), List.count_pos_iff.mp (by omega)⟩
    cases hI : buildImpTable dataImp <;> simp [processPayloads, hexp, hI]
  · intro dataExp hdr rows hnot
    have himp : buildImpTable (hdr :: rows) = none := by
      simp only [buildImpTable]
      rw [if_neg]
      rintro ⟨-, h1, h2⟩
      exact hnot ⟨List.count_pos_iff.mp (by omega), List.count_pos_iff.mp (by omega)⟩
    cases hE : buildExpTable dataExp <;> simp [processPayloads, hE, himp]

/-- Witness for C4: the same exports row parsed through two column orders,
and an imports payload whose header omits `GEN_VAL_YR` failing the fetch. -/
theorem claim4_witness :
    parseExpRow ["CTY_CODE", "CTY_NAME", "ALL_VAL_YR"] ["5700", "CHINA", "7"] =
      parseExpRow ["ALL_VAL_YR", "CTY_CODE", "CTY_NAME"] ["7", "5700", "CHINA"] ∧
    processPayloads [["CTY_CODE", "CTY_NAME", "ALL_VAL_YR"]]
      [["CTY_CODE", "CTY_NAME"]] = Except.error FetchError.fetchError :=
  ⟨claim4_header_driven_parse.2.2.1
      ["CTY_CODE", "CTY_NAME", "ALL_VAL_YR"] ["5700", "CHINA", "7"]
      ["ALL_VAL_YR", "CTY_CODE", "CTY_NAME"] ["7", "5700", "CHINA"]
      rfl rfl (by decide) (by decide) (by decide) (by decide),
    claim4_header_driven_parse.2.2.2.2.2 [["CTY_CODE", "CTY_NAME", "ALL_VAL_YR"]]
      ["CTY_CODE", "CTY_NAME"] [] (by decide)⟩
